import Mathlib

/-!
Shallow embedding of the CSV bank-statement import pipeline of
`finance/importers.py` (class `AmexCSVParser`, class `CSVImporter`, function
`validate_csv_file`), together with proofs about the claims on its
specification.

Modelling conventions:
* Python `Decimal` values are modelled by their internal representation, a
  signed coefficient together with a power-of-ten exponent (`Dec`), exactly
  as the `decimal` module stores finite numbers.  Only the finite
  numeric-string grammar of the `Decimal` constructor is modelled
  (optional sign, digits, optional fraction, optional exponent); the special
  values `NaN`/`Infinity` and 3.6-style underscore separators are outside the
  model, as no amount in scope uses them.  Numeric comparison, negativity and
  zero tests are defined on `Dec` and agree with the `decimal` module's
  numeric semantics; `Dec.toRat` gives the rational value for spec-level
  statements.
* Python strings are Lean `String`s; `str.strip`, `str.lower`, slicing and
  one-character `str.replace` are modelled character-wise (the inputs in
  scope are ASCII).
* The database is modelled as an explicit list of rows; `queryset.first()`
  is the first element of the list satisfying the filter, the list being in
  the store's iteration order.
* The `csv` module is the stdlib boundary: the parsers are modelled from the
  row sequences the readers yield (`csv.DictReader` skips blank rows; that
  skipping is part of the headerless model where the source performs it
  itself).
-/

namespace Importers

/-- Python `str.strip()`: drop leading and trailing whitespace. -/
def pyStrip (s : String) : String :=
  String.mk (((s.data.dropWhile Char.isWhitespace).reverse.dropWhile Char.isWhitespace).reverse)

/-- Python `str.lower()` (ASCII case folding, as used on the data in scope). -/
def pyLower (s : String) : String :=
  String.mk (s.data.map Char.toLower)

/-- Python slicing `s[:n]` (by code point). -/
def strTake (s : String) (n : Nat) : String :=
  String.mk (s.data.take n)

/-- Python `s.replace(c, '')` for a single character `c`: remove every
occurrence. -/
def removeChar (c : Char) (s : String) : String :=
  String.mk (s.data.filter (fun a => a ≠ c))

/-- Python `s.startswith('-')`. -/
def startsWithDash (s : String) : Bool :=
  match s.data with
  | '-' :: _ => true
  | _ => false

/-- Numeric value of a string of decimal digits (most significant first). -/
def digitsToNat (ds : List Char) : Nat :=
  ds.foldl (fun a c => 10 * a + (c.toNat - 48)) 0

/-- A finite Python `Decimal`: coefficient (carrying the sign) and
power-of-ten exponent, the value being `num * 10 ^ exp`.  This is the
`decimal` module's own representation of finite numbers. -/
structure Dec where
  num : Int
  exp : Int
deriving DecidableEq, Repr

/-- `10 ^ e` over `ℚ` for a signed exponent. -/
def pow10 (e : Int) : ℚ :=
  if 0 ≤ e then (10 : ℚ) ^ e.toNat else ((10 : ℚ) ^ (-e).toNat)⁻¹

/-- The rational value of a `Dec`. -/
def Dec.toRat (d : Dec) : ℚ :=
  (d.num : ℚ) * pow10 d.exp

/-- `abs` on `Decimal`: the sign is cleared, the exponent kept. -/
def Dec.abs (d : Dec) : Dec :=
  ⟨|d.num|, d.exp⟩

/-- `Decimal < 0` (numeric): the value is negative iff the coefficient is. -/
def Dec.isNeg (d : Dec) : Bool :=
  decide (d.num < 0)

/-- `Decimal == 0` (numeric), i.e. Python falsiness of a `Decimal`. -/
def Dec.isZero (d : Dec) : Bool :=
  decide (d.num = 0)

/-- Numeric equality of two `Decimal`s (`Decimal('10.5') == Decimal('10.50')`):
scale both coefficients to the smaller exponent and compare. -/
def Dec.numEq (a b : Dec) : Bool :=
  decide (a.num * (10 : Int) ^ (a.exp - b.exp).toNat = b.num * (10 : Int) ^ (b.exp - a.exp).toNat)

/-- Strip one optional leading sign, returning the sign as `±1`. -/
def splitSign : List Char → Int × List Char
  | '-' :: r => (-1, r)
  | '+' :: r => (1, r)
  | r => (1, r)

/-- The finite-number grammar of Python's `Decimal` constructor on an
already-stripped string:
`[sign] (digits [. digits] | . digits) [(e|E) [sign] digits]`.
Returns the parsed `Dec`, or `none` when the string is not a valid numeric
string (`InvalidOperation` in the source). -/
def decimalOfChars (cs : List Char) : Option Dec :=
  let sc := splitSign cs
  let ip := sc.2.takeWhile Char.isDigit
  let cs2 := sc.2.dropWhile Char.isDigit
  let fc : List Char × List Char :=
    match cs2 with
    | '.' :: r => (r.takeWhile Char.isDigit, r.dropWhile Char.isDigit)
    | r => ([], r)
  if ip.isEmpty ∧ fc.1.isEmpty then none
  else
    let m : Int := sc.1 * (digitsToNat (ip ++ fc.1) : Int)
    match fc.2 with
    | [] => some ⟨m, -(fc.1.length : Int)⟩
    | c :: r =>
      if c = 'e' ∨ c = 'E' then
        let esc := splitSign r
        let ed := esc.2.takeWhile Char.isDigit
        let r2 := esc.2.dropWhile Char.isDigit
        if ed.isEmpty ∨ ¬ r2.isEmpty then none
        else some ⟨m, esc.1 * (digitsToNat ed : Int) - (fc.1.length : Int)⟩
      else none

/-- The cleaning performed by `parse_amount` and `is_refund`:
`amount_str.strip().replace('$', '').replace(',', '')`. -/
def cleanAmount (s : String) : String :=
  removeChar ',' (removeChar '$' (pyStrip s))

/-- `AmexCSVParser.parse_amount`: empty string is `None`; otherwise clean the
string, parse it as a `Decimal` and take the absolute value. -/
def parse_amount (s : String) : Option Dec :=
  if s = "" then none
  else (decimalOfChars (cleanAmount s).data).map Dec.abs

/-- `AmexCSVParser.is_refund`: empty string is `False`; otherwise clean the
string and test whether the parsed `Decimal` is negative (parse failure is
`False`). -/
def is_refund (s : String) : Bool :=
  if s = "" then false
  else
    match decimalOfChars (cleanAmount s).data with
    | some d => d.isNeg
    | none => false

example : parse_amount ("$1,234.56") = some ⟨123456, -2⟩ := by decide
example : parse_amount ("-10.50") = some ⟨1050, -2⟩ := by decide
example : parse_amount ("99.99") = some ⟨9999, -2⟩ := by decide
example : parse_amount ("invalid") = none := by decide
example : parse_amount ("") = none := by decide
example : parse_amount ("1e2") = some ⟨1, 2⟩ := by decide
example : is_refund ("-10.50") = true := by decide
example : is_refund ("-$10.50") = true := by decide
example : is_refund ("$-10.50") = true := by decide
example : is_refund ("$49.99") = false := by decide
example : is_refund ("-0.00") = false := by decide

/-! ## Date parsing

`AmexCSVParser.parse_date` tries `datetime.strptime` with the formats
`'%m/%d/%Y'`, `'%m/%d/%y'`, `'%Y-%m-%d'` in order.  CPython's `_strptime`
compiles each directive to a regular expression —
`%m ↦ 1[0-2]|0[1-9]|[1-9]`, `%d ↦ 3[01]|[12]\d|0[1-9]|[1-9]`,
`%Y ↦ \d\d\d\d`, `%y ↦ \d\d` — requires the whole string to be consumed,
maps a two-digit year `y` to `2000 + y` when `y ≤ 68` and `1900 + y`
otherwise, and finally constructs a `date`, which raises `ValueError` (and
makes `parse_date` try the next format) when the day does not exist in the
month or the year is outside `1..9999`.  The scanners below implement those
regexes with their leftmost-alternative semantics; no backtracking is needed
because every alternative that consumes an extra character consumes a digit,
while the characters following a field in these formats (`/`, `-`, end of
string) are never digits. -/

/-- A calendar date as produced by `datetime.date`. -/
structure Date where
  year : Nat
  month : Nat
  day : Nat
deriving DecidableEq, Repr

/-- Value of a digit character. -/
def digitVal (c : Char) : Nat :=
  c.toNat - 48

/-- The `%m` regex `1[0-2]|0[1-9]|[1-9]`, leftmost alternative first. -/
def reMonth : List Char → Option (Nat × List Char)
  | '0' :: c :: rest => if '1' ≤ c ∧ c ≤ '9' then some (digitVal c, rest) else none
  | '1' :: c :: rest =>
    if c = '0' ∨ c = '1' ∨ c = '2' then some (10 + digitVal c, rest)
    else some (1, c :: rest)
  | c :: rest => if '1' ≤ c ∧ c ≤ '9' then some (digitVal c, rest) else none
  | [] => none

/-- The `%d` regex `3[01]|[12]\d|0[1-9]|[1-9]`, leftmost alternative first. -/
def reDay : List Char → Option (Nat × List Char)
  | '3' :: '0' :: rest => some (30, rest)
  | '3' :: '1' :: rest => some (31, rest)
  | '0' :: c :: rest => if '1' ≤ c ∧ c ≤ '9' then some (digitVal c, rest) else none
  | c :: c2 :: rest =>
    if (c = '1' ∨ c = '2') ∧ c2.isDigit then some (10 * digitVal c + digitVal c2, rest)
    else if '1' ≤ c ∧ c ≤ '9' then some (digitVal c, c2 :: rest)
    else none
  | [c] => if '1' ≤ c ∧ c ≤ '9' then some (digitVal c, []) else none
  | [] => none

/-- The `%Y` regex `\d\d\d\d`: exactly four digits. -/
def reYear4 : List Char → Option (Nat × List Char)
  | a :: b :: c :: d :: rest =>
    if a.isDigit ∧ b.isDigit ∧ c.isDigit ∧ d.isDigit then
      some (digitsToNat [a, b, c, d], rest)
    else none
  | _ => none

/-- The `%y` regex `\d\d`: exactly two digits. -/
def reYear2 : List Char → Option (Nat × List Char)
  | a :: b :: rest =>
    if a.isDigit ∧ b.isDigit then some (digitsToNat [a, b], rest) else none
  | _ => none

/-- Match one literal character of the format. -/
def expectChar (c : Char) : List Char → Option (List Char)
  | a :: rest => if a = c then some rest else none
  | [] => none

/-- `_strptime`'s mapping of a two-digit year. -/
def pivotY2 (y : Nat) : Nat :=
  if y ≤ 68 then 2000 + y else 1900 + y

/-- Gregorian leap-year test, as in `datetime`. -/
def isLeap (y : Nat) : Bool :=
  y % 4 == 0 && (y % 100 != 0 || y % 400 == 0)

/-- Length of a month, as in `datetime`. -/
def daysInMonth (y m : Nat) : Nat :=
  if m = 2 then (if isLeap y then 29 else 28)
  else if m = 4 ∨ m = 6 ∨ m = 9 ∨ m = 11 then 30
  else 31

/-- `datetime.date(y, m, d)`: `none` models the `ValueError` raised on an
invalid component (`MINYEAR = 1`, `MAXYEAR = 9999`). -/
def mkValidDate (y m d : Nat) : Option Date :=
  if 1 ≤ y ∧ y ≤ 9999 ∧ 1 ≤ m ∧ m ≤ 12 ∧ 1 ≤ d ∧ d ≤ daysInMonth y m then
    some ⟨y, m, d⟩
  else none

/-- Scan a full `%m/%d/%Y` match, returning `(month, day, year)`. -/
def scanMDY4 (cs : List Char) : Option (Nat × Nat × Nat) := do
  let (m, cs) ← reMonth cs
  let cs ← expectChar '/' cs
  let (d, cs) ← reDay cs
  let cs ← expectChar '/' cs
  let (y, cs) ← reYear4 cs
  if cs.isEmpty then pure (m, d, y) else none

/-- Scan a full `%m/%d/%y` match, returning `(month, day, two-digit year)`. -/
def scanMDY2 (cs : List Char) : Option (Nat × Nat × Nat) := do
  let (m, cs) ← reMonth cs
  let cs ← expectChar '/' cs
  let (d, cs) ← reDay cs
  let cs ← expectChar '/' cs
  let (y, cs) ← reYear2 cs
  if cs.isEmpty then pure (m, d, y) else none

/-- Scan a full `%Y-%m-%d` match, returning `(month, day, year)`. -/
def scanYMD (cs : List Char) : Option (Nat × Nat × Nat) := do
  let (y, cs) ← reYear4 cs
  let cs ← expectChar '-' cs
  let (m, cs) ← reMonth cs
  let cs ← expectChar '-' cs
  let (d, cs) ← reDay cs
  if cs.isEmpty then pure (m, d, y) else none

/-- `datetime.strptime(cs, '%m/%d/%Y').date()`. -/
def strptimeMDY4 (cs : List Char) : Option Date :=
  (scanMDY4 cs).bind (fun x => mkValidDate x.2.2 x.1 x.2.1)

/-- `datetime.strptime(cs, '%m/%d/%y').date()`. -/
def strptimeMDY2 (cs : List Char) : Option Date :=
  (scanMDY2 cs).bind (fun x => mkValidDate (pivotY2 x.2.2) x.1 x.2.1)

/-- `datetime.strptime(cs, '%Y-%m-%d').date()`. -/
def strptimeYMD (cs : List Char) : Option Date :=
  (scanYMD cs).bind (fun x => mkValidDate x.2.2 x.1 x.2.1)

/-- `AmexCSVParser.parse_date`: empty string is `None`; otherwise strip and
try the three formats in order, the first success winning. -/
def parse_date (s : String) : Option Date :=
  if s = "" then none
  else
    let t := (pyStrip s).data
    match strptimeMDY4 t with
    | some d => some d
    | none =>
      match strptimeMDY2 t with
      | some d => some d
      | none => strptimeYMD t

example : parse_date ("01/15/2026") = some ⟨2026, 1, 15⟩ := by decide
example : parse_date ("1/5/2026") = some ⟨2026, 1, 5⟩ := by decide
example : parse_date ("2026-01-15") = some ⟨2026, 1, 15⟩ := by decide
example : parse_date ("01/15/26") = some ⟨2026, 1, 15⟩ := by decide
example : parse_date ("01/15/69") = some ⟨1969, 1, 15⟩ := by decide
example : parse_date ("01/15/68") = some ⟨2068, 1, 15⟩ := by decide
example : parse_date ("02/30/2026") = none := by decide
example : parse_date ("02/29/2024") = some ⟨2024, 2, 29⟩ := by decide
example : parse_date ("invalid") = none := by decide
example : parse_date ("") = none := by decide
example : parse_date (" 12/31/1999 ") = some ⟨1999, 12, 31⟩ := by decide

/-! ## Data model

`Category` and `Transaction` keep the fields of `finance/models.py` that the
importer reads or writes; the foreign keys of a `Transaction` are carried
as string identifiers.  `RawRow` is the dictionary a CSV reader yields for
one row, restricted to the eleven Amex columns (`row.get(col, '')` returns
`''` for an absent key, so absent columns are empty strings).  `ParsedRow`
mirrors the dataclass of the source. -/

structure Category where
  id : String
  name : String
  category_type : String
  is_active : Bool
deriving DecidableEq, Repr

structure Transaction where
  id : String
  account : String
  transaction_type : String
  category : Option String
  amount : Dec
  transaction_date : Date
  description : String
  vendor : String
  reference_number : String
  created_by : String
deriving DecidableEq, Repr

structure RawRow where
  date : String := ""
  description : String := ""
  amount : String := ""
  extended_details : String := ""
  statement_as : String := ""
  address : String := ""
  city_state : String := ""
  zip_code : String := ""
  country : String := ""
  reference : String := ""
  category : String := ""
deriving DecidableEq, Repr

structure ParsedRow where
  row_number : Nat
  date : Option Date
  description : String
  amount : Option Dec
  vendor : String
  reference : String
  amex_category : String
  suggested_category_id : Option String
  is_duplicate : Bool
  duplicate_transaction_id : Option String
  error : Option String
  raw_data : RawRow
deriving DecidableEq, Repr

/-- `ParsedRow.is_valid`: the row can be imported. -/
def ParsedRow.is_valid (r : ParsedRow) : Bool :=
  r.error.isNone && r.date.isSome && r.amount.isSome

/-! ## Category suggestion -/

/-- The fixed Amex-category → ledger-category-name table of
`_build_category_map`, in source (= dict insertion) order. -/
def amexToOurs : List (String × String) :=
  [("Business Services", "Professional Services"),
   ("Business Services-Other", "Professional Services"),
   ("Office Supplies", "Office Supplies"),
   ("Computer Supplies", "Equipment"),
   ("Telecommunications", "Software & Subscriptions"),
   ("Software", "Software & Subscriptions"),
   ("Advertising", "Advertising & Marketing"),
   ("Marketing", "Advertising & Marketing"),
   ("Education", "Education & Training"),
   ("Travel", "Travel"),
   ("Airlines", "Travel"),
   ("Hotels", "Travel"),
   ("Rental Cars", "Travel"),
   ("Restaurants", "Meals & Entertainment"),
   ("Restaurant", "Meals & Entertainment"),
   ("Dining", "Meals & Entertainment"),
   ("Fees & Adjustments", "Bank Fees & Interest"),
   ("Fees", "Bank Fees & Interest"),
   ("Interest", "Bank Fees & Interest"),
   ("Merchandise & Supplies", "Office Supplies"),
   ("Merchandise", "Office Supplies"),
   ("Other", "Miscellaneous")]

/-- `AmexCSVParser._build_category_map`: keep the table entries whose target
name is an active expense category, keyed by the lower-cased Amex label.
`our_categories` is a dict comprehension over the category store, so on a
name collision the last store row with that name wins. -/
def buildCategoryMap (cats : List Category) : List (String × Category) :=
  let actives := cats.filter (fun c => c.is_active && c.category_type == "expense")
  amexToOurs.filterMap (fun p =>
    match (actives.filter (fun c => c.name == p.2)).getLast? with
    | some c => some (pyLower p.1, c)
    | none => none)

/-- Python `needle in hay` on strings. -/
def strContains (hay needle : List Char) : Bool :=
  hay.tails.any (fun t => needle.isPrefixOf t)

/-- `AmexCSVParser.get_suggested_category`: exact lower-cased match in the
map first, then the first map entry that is a substring of the key or
contains it, in map order. -/
def get_suggested_category (cmap : List (String × Category)) (amex_category : String) :
    Option Category :=
  if amex_category = "" then none
  else
    let key := pyStrip (pyLower amex_category)
    match cmap.find? (fun p => p.1 == key) with
    | some p => some p.2
    | none =>
      match cmap.find? (fun p => strContains key.data p.1.data || strContains p.1.data key.data) with
      | some p => some p.2
      | none => none

/-! ## Duplicate detection -/

/-- The description key of the first duplicate query:
`parsed_row.description.strip()[:500]`. -/
def descrKey (r : ParsedRow) : String :=
  strTake (pyStrip r.description) 500

/-- The first duplicate filter: same account, date, amount, and
case-insensitive exact description match (`description__iexact`). -/
def tripleMatch (account : String) (r : ParsedRow) (t : Transaction) : Bool :=
  t.account == account &&
    (match r.date with | some d => t.transaction_date == d | none => false) &&
    (match r.amount with | some a => t.amount.numEq a | none => false) &&
    pyLower t.description == pyLower (descrKey r)

/-- The second duplicate filter: same account and reference number. -/
def refMatch (account : String) (r : ParsedRow) (t : Transaction) : Bool :=
  t.account == account && t.reference_number == r.reference

/-- `AmexCSVParser.check_duplicate`.  The guard `not parsed_row.date or not
parsed_row.amount` uses Python falsiness: a `date` is always truthy, a
`Decimal` is falsy when it is `None` or equal to zero. -/
def check_duplicate (ledger : List Transaction) (account : String) (r : ParsedRow) :
    Bool × Option String :=
  if r.date.isNone || (match r.amount with | none => true | some a => a.isZero) then
    (false, none)
  else
    match ledger.find? (tripleMatch account r) with
    | some t => (true, some t.id)
    | none =>
      if r.reference ≠ "" then
        match ledger.find? (refMatch account r) with
        | some t => (true, some t.id)
        | none => (false, none)
      else (false, none)

/-! ## Row parsing -/

/-- `description.split('  ')[0]`: the prefix before the first run of two
consecutive spaces (the whole string when there is none). -/
def vendorOf : List Char → List Char
  | [] => []
  | a :: rest =>
    if a = ' ' ∧ rest.head? = some ' ' then []
    else a :: vendorOf rest

/-- The `parsed` record `AmexCSVParser.parse_row` builds before the
duplicate check: dates and amounts parsed, errors chained in source order
(date, then amount — only when no earlier error — then description),
description, vendor, reference and category extracted and truncated. -/
def parse_row_pre (cats : List Category) (row : RawRow) (row_number : Nat) : ParsedRow :=
  let date_str := row.date
  let parsed_date := parse_date date_str
  let error0 : Option String :=
    if parsed_date.isNone then some ("Invalid date format: " ++ date_str) else none
  let amount_str := row.amount
  let parsed_amount := parse_amount amount_str
  let error1 : Option String :=
    if parsed_amount.isNone && error0.isNone then some ("Invalid amount format: " ++ amount_str)
    else error0
  let descr0 := pyStrip row.statement_as
  let descr := if descr0 = "" then pyStrip row.description else descr0
  let error2 : Option String :=
    if descr = "" && error1.isNone then some ("Missing description") else error1
  let vendor := if descr = "" then "" else String.mk (vendorOf descr.data)
  let reference := pyStrip row.reference
  let amex_category := pyStrip row.category
  let suggested := get_suggested_category (buildCategoryMap cats) amex_category
  { row_number := row_number
    date := parsed_date
    description := strTake descr 500
    amount := parsed_amount
    vendor := strTake vendor 200
    reference := strTake reference 100
    amex_category := amex_category
    suggested_category_id := suggested.map (fun c => c.id)
    is_duplicate := false
    duplicate_transaction_id := none
    error := error2
    raw_data := row }

/-- `AmexCSVParser.parse_row`.  `cats` is the category store the parser was
built over, `ledger` the transaction store and `account` the parser's
account.  Duplicates are only checked when the row has no error. -/
def parse_row (cats : List Category) (ledger : List Transaction) (account : String)
    (row : RawRow) (row_number : Nat) : ParsedRow :=
  let parsed := parse_row_pre cats row row_number
  if parsed.error.isNone then
    let dup := check_duplicate ledger account parsed
    { parsed with is_duplicate := dup.1, duplicate_transaction_id := dup.2 }
  else parsed

/-! ## File parsing

`parse_csv` consumes the rows yielded by `csv.DictReader` (which has already
consumed the header line and skips blank rows), numbering them from 1.
`_parse_headerless_csv` consumes the raw cell rows of `csv.reader`, maps
them positionally onto the eleven Amex columns, and itself skips rows that
are empty or all-falsy — without advancing the row counter. -/

/-- Number and parse a list of reader rows starting at `n`. -/
def parseRowsFrom (cats : List Category) (ledger : List Transaction) (account : String) :
    List RawRow → Nat → List ParsedRow
  | [], _ => []
  | r :: rest, n =>
    parse_row cats ledger account r n :: parseRowsFrom cats ledger account rest (n + 1)

/-- `AmexCSVParser.parse_csv` on the data rows of the header variant. -/
def parse_csv (cats : List Category) (ledger : List Transaction) (account : String)
    (rows : List RawRow) : List ParsedRow :=
  parseRowsFrom cats ledger account rows 1

/-- Positional mapping of a raw cell row onto the Amex columns:
`row[col] = csv_row[i]` for `i < len(csv_row)`, missing cells read back as
`''` through `row.get(col, '')`. -/
def rowOfCells (cells : List String) : RawRow :=
  { date := cells.getD 0 ""
    description := cells.getD 1 ""
    amount := cells.getD 2 ""
    extended_details := cells.getD 3 ""
    statement_as := cells.getD 4 ""
    address := cells.getD 5 ""
    city_state := cells.getD 6 ""
    zip_code := cells.getD 7 ""
    country := cells.getD 8 ""
    reference := cells.getD 9 ""
    category := cells.getD 10 "" }

/-- The loop of `_parse_headerless_csv`: skip rows with no truthy cell
(`not csv_row or not any(csv_row)`) without numbering them. -/
def headerlessFrom (cats : List Category) (ledger : List Transaction) (account : String) :
    List (List String) → Nat → List ParsedRow
  | [], _ => []
  | cells :: rest, n =>
    if cells.all (fun s => s == "") then headerlessFrom cats ledger account rest n
    else
      parse_row cats ledger account (rowOfCells cells) n ::
        headerlessFrom cats ledger account rest (n + 1)

/-- `AmexCSVParser._parse_headerless_csv`. -/
def parse_headerless_csv (cats : List Category) (ledger : List Transaction) (account : String)
    (cellRows : List (List String)) : List ParsedRow :=
  headerlessFrom cats ledger account cellRows 1

/-! ## Import execution (`CSVImporter.import_rows`)

The database write is modelled by returning the extended transaction list
together with the `{imported, skipped, errors}` summary the method returns.
`Transaction.objects.create` assigns a fresh primary key; the store-assigned
identifier is not modelled (created rows carry an empty `id`), and the
per-row `except` path models the write as always succeeding — write-time
integrity failures come from the database, which is outside the embedding. -/

structure ImportResult where
  ledger : List Transaction
  imported : Nat
  skipped : Nat
  errors : List (Nat × String)
deriving DecidableEq, Repr

/-- `category_overrides.get(str(row.row_number), row.suggested_category_id)`. -/
def overrideGet (ovs : List (String × String)) (key : String) (dflt : Option String) :
    Option String :=
  match ovs.find? (fun p => p.1 == key) with
  | some p => some p.2
  | none => dflt

/-- `categories.get(category_id) if category_id else None`, where
`categories` is the dict of active categories keyed by id. -/
def resolvedCategory (cats : List Category) (ovs : List (String × String)) (row : ParsedRow) :
    Option Category :=
  match overrideGet ovs (toString row.row_number) row.suggested_category_id with
  | none => none
  | some i =>
    if i = "" then none
    else (cats.filter (fun c => c.is_active)).find? (fun c => c.id == i)

/-- The refund test of the executor:
`row.raw_data.get('Amount', '').strip().startswith('-')`. -/
def rawAmountNegative (row : ParsedRow) : Bool :=
  startsWithDash (pyStrip row.raw_data.amount)

/-- `Category.objects.filter(name='Refunds', is_active=True).first()`. -/
def refundsCategory (cats : List Category) : Option Category :=
  cats.find? (fun c => c.name == "Refunds" && c.is_active)

/-- The category finally written for a row: for a refund whose resolved
category is an expense category, the `Refunds` lookup result replaces it
(even when that lookup is `None`). -/
def finalCategory (cats : List Category) (ovs : List (String × String)) (row : ParsedRow) :
    Option Category :=
  let category := resolvedCategory cats ovs row
  if rawAmountNegative row &&
      (match category with | some c => c.category_type == "expense" | none => false) then
    refundsCategory cats
  else category

/-- The `LedgerEntry` written for one imported row. -/
def entryFor (cats : List Category) (account user : String) (ovs : List (String × String))
    (row : ParsedRow) : Transaction :=
  { id := ""
    account := account
    transaction_type := if rawAmountNegative row then "income" else "expense"
    category := (finalCategory cats ovs row).map (fun c => c.id)
    amount := row.amount.getD ⟨0, 0⟩
    transaction_date := row.date.getD ⟨1, 1, 1⟩
    description := row.description
    vendor := row.vendor
    reference_number := row.reference
    created_by := user }

/-- The loop body of `import_rows` over the remaining rows and the running
state. -/
def importGo (cats : List Category) (account user : String) (ovs : List (String × String))
    (skipDups : Bool) : List ParsedRow → ImportResult → ImportResult
  | [], st => st
  | row :: rest, st =>
    if row.is_valid then
      if row.is_duplicate && skipDups then
        importGo cats account user ovs skipDups rest { st with skipped := st.skipped + 1 }
      else
        importGo cats account user ovs skipDups rest
          { st with
            ledger := st.ledger ++ [entryFor cats account user ovs row]
            imported := st.imported + 1 }
    else
      importGo cats account user ovs skipDups rest
        { st with errors := st.errors ++ [(row.row_number, row.error.getD ("Invalid row data"))] }

/-- `CSVImporter.import_rows` over an initial transaction store. -/
def import_rows (cats : List Category) (account user : String) (ovs : List (String × String))
    (skipDups : Bool) (rows : List ParsedRow) (ledger : List Transaction) : ImportResult :=
  importGo cats account user ovs skipDups rows ⟨ledger, 0, 0, []⟩

/-! ## Upload validation (`validate_csv_file`) -/

/-- An uploaded file, as far as `validate_csv_file` inspects it: name, byte
size, whether `content.decode('utf-8')` succeeds, whether the decoded text
is blank (`not content.strip()`), and the rows `csv.reader` yields for it. -/
structure UploadedFile where
  name : String
  size : Nat
  decode_ok : Bool
  content_blank : Bool
  rows : List (List String)
deriving DecidableEq, Repr

structure ValidationResult where
  valid : Bool
  error : Option String
  row_count : Option Nat
deriving DecidableEq, Repr

/-- The header row of the file, each cell stripped and lower-cased
(`normalized_headers` in the source; `rows[0] if rows else []`). -/
def normalizedHeaders (f : UploadedFile) : List String :=
  (f.rows.headD []).map (fun h => pyLower (pyStrip h))

/-- `validate_csv_file`.  The checks run in source order: presence,
`.csv` extension (on the lower-cased name), the 5 MB size cap, decodability,
non-blank content, at least one data row, the required `Date`/`Amount`
columns, a description column, and the 10000-row cap. -/
def validate_csv_file (file : Option UploadedFile) : ValidationResult :=
  match file with
  | none => ⟨false, some ("No file uploaded"), none⟩
  | some f =>
    if ¬ List.isSuffixOf (".csv".data) (pyLower f.name).data then
      ⟨false, some ("File must be a CSV file"), none⟩
    else if f.size > 5 * 1024 * 1024 then
      ⟨false, some ("File too large. Maximum size is 5MB"), none⟩
    else if ¬ f.decode_ok then
      ⟨false, some ("File encoding not supported. Please use UTF-8"), none⟩
    else if f.content_blank then
      ⟨false, some ("File is empty"), none⟩
    else if f.rows.length < 2 then
      ⟨false, some ("File must have at least one data row"), none⟩
    else
      let normalized := normalizedHeaders f
      let missing :=
        (if normalized.contains "date" then [] else ["Date"]) ++
          (if normalized.contains "amount" then [] else ["Amount"])
      if ¬ missing.isEmpty then
        ⟨false,
          some ("Missing required column(s): " ++ String.intercalate (", ") missing ++
            ". Expected Amex CSV format with Date, Amount columns."), none⟩
      else if ¬ (normalized.contains "description" ||
          normalized.contains ("appears on your statement as")) then
        ⟨false,
          some ("Missing description column. Expected \"Description\" or \"Appears On Your Statement As\" column."),
          none⟩
      else if f.rows.length > 10000 then
        ⟨false,
          some ("File has too many rows (" ++ toString f.rows.length ++
            "). Maximum allowed is 10000."), none⟩
      else ⟨true, none, some (f.rows.length - 1)⟩

/-! ## Sanity checks against the repository's own test data
(`finance/tests/test_csv_import.py`). -/

/-- The first sample row of `SAMPLE_AMEX_CSV`. -/
def amazonRow : RawRow :=
  { date := "01/15/2026"
    description := "AMAZON.COM"
    amount := "49.99"
    extended_details := "AMAZON PURCHASE"
    statement_as := "AMAZON.COM*A12345"
    address := "410 TERRY AVE N"
    city_state := "SEATTLE/WA"
    zip_code := "98109"
    country := "US"
    reference := "320262012345678"
    category := "Merchandise & Supplies" }

/-- An active expense category as seeded by the migrations. -/
def officeCat : Category :=
  ⟨"c-office", "Office Supplies", "expense", true⟩

example : (parse_row [officeCat] [] ("acct") amazonRow 1).date = some ⟨2026, 1, 15⟩ := by decide
example : (parse_row [officeCat] [] ("acct") amazonRow 1).amount = some ⟨4999, -2⟩ := by decide
example : (parse_row [officeCat] [] ("acct") amazonRow 1).description = "AMAZON.COM*A12345" := by
  decide
example : (parse_row [officeCat] [] ("acct") amazonRow 1).suggested_category_id =
    some ("c-office") := by decide
example : (parse_row [officeCat] [] ("acct") amazonRow 1).is_valid = true := by decide
example : (parse_row [officeCat] [] ("acct") amazonRow 1).is_duplicate = false := by decide

/-- The transaction created in `test_duplicate_detection`. -/
def amazonTx : Transaction :=
  { id := "t-amazon"
    account := "acct"
    transaction_type := "expense"
    category := none
    amount := ⟨4999, -2⟩
    transaction_date := ⟨2026, 1, 15⟩
    description := "AMAZON.COM*A12345"
    vendor := ""
    reference_number := ""
    created_by := "" }

example : (parse_row [officeCat] [amazonTx] ("acct") amazonRow 1).is_duplicate = true := by decide
example : (parse_row [officeCat] [amazonTx] ("acct") amazonRow 1).duplicate_transaction_id =
    some ("t-amazon") := by decide

/-- A row with an empty date, as in `test_parse_row_missing_date`. -/
def missingDateRow : RawRow :=
  { date := "", description := "Test", amount := "10.00" }

example : (parse_row [] [] ("acct") missingDateRow 1).error =
    some ("Invalid date format: ") := by decide
example : (parse_row [] [] ("acct") missingDateRow 1).is_valid = false := by decide

example :
    (validate_csv_file (some ⟨"test.txt", 7, true, false, [["a"], ["b"]]⟩)).error =
      some ("File must be a CSV file") := by decide
example :
    (validate_csv_file (some ⟨"test.csv", 7, true, true, []⟩)).error =
      some ("File is empty") := by decide

/-! ## Helper lemmas -/

theorem pow10_pos (e : Int) : 0 < pow10 e := by
  unfold pow10
  split
  · positivity
  · positivity

theorem Dec.toRat_abs_nonneg (d : Dec) : 0 ≤ d.abs.toRat := by
  show (0 : ℚ) ≤ ((|d.num| : Int) : ℚ) * pow10 d.exp
  exact mul_nonneg (by exact_mod_cast abs_nonneg d.num) (le_of_lt (pow10_pos _))

theorem Dec.toRat_pos_of (d : Dec) (h : 0 < d.num) : 0 < d.toRat :=
  mul_pos (by exact_mod_cast h) (pow10_pos _)

theorem parse_row_date (cats : List Category) (ledger : List Transaction) (account : String)
    (row : RawRow) (n : Nat) :
    (parse_row cats ledger account row n).date = (parse_row_pre cats row n).date := by
  unfold parse_row
  dsimp only
  split <;> rfl

theorem parse_row_amount (cats : List Category) (ledger : List Transaction) (account : String)
    (row : RawRow) (n : Nat) :
    (parse_row cats ledger account row n).amount = (parse_row_pre cats row n).amount := by
  unfold parse_row
  dsimp only
  split <;> rfl

theorem parse_row_error (cats : List Category) (ledger : List Transaction) (account : String)
    (row : RawRow) (n : Nat) :
    (parse_row cats ledger account row n).error = (parse_row_pre cats row n).error := by
  unfold parse_row
  dsimp only
  split <;> rfl

theorem parse_row_descr (cats : List Category) (ledger : List Transaction) (account : String)
    (row : RawRow) (n : Nat) :
    (parse_row cats ledger account row n).description = (parse_row_pre cats row n).description := by
  unfold parse_row
  dsimp only
  split <;> rfl

theorem parse_row_ref (cats : List Category) (ledger : List Transaction) (account : String)
    (row : RawRow) (n : Nat) :
    (parse_row cats ledger account row n).reference = (parse_row_pre cats row n).reference := by
  unfold parse_row
  dsimp only
  split <;> rfl

theorem parse_row_row_number (cats : List Category) (ledger : List Transaction) (account : String)
    (row : RawRow) (n : Nat) :
    (parse_row cats ledger account row n).row_number = n := by
  unfold parse_row
  dsimp only
  split <;> rfl

theorem parse_row_pre_date_error (cats : List Category) (row : RawRow) (n : Nat)
    (h : parse_date row.date = none) :
    (parse_row_pre cats row n).date = none ∧
    (parse_row_pre cats row n).error = some ("Invalid date format: " ++ row.date) := by
  unfold parse_row_pre
  simp [h]

theorem parse_row_pre_amount_error (cats : List Category) (row : RawRow) (n : Nat) (d : Date)
    (hd : parse_date row.date = some d) (ha : parse_amount row.amount = none) :
    (parse_row_pre cats row n).error = some ("Invalid amount format: " ++ row.amount) := by
  unfold parse_row_pre
  simp [hd, ha]

/-! ## Claim C1 -/

/-- Claim C1: every amount string that `parse_amount` accepts yields a
non-negative amount, regardless of sign, `$` symbol or `,` separators; in
particular `"$1,234.56"`, `"-10.50"` and `"99.99"` all parse to a positive
decimal. -/
theorem C1_parse_amount_nonneg :
    (∀ s d, parse_amount s = some d → 0 ≤ d.toRat) ∧
    parse_amount ("$1,234.56") = some ⟨123456, -2⟩ ∧ 0 < Dec.toRat ⟨123456, -2⟩ ∧
    parse_amount ("-10.50") = some ⟨1050, -2⟩ ∧ 0 < Dec.toRat ⟨1050, -2⟩ ∧
    parse_amount ("99.99") = some ⟨9999, -2⟩ ∧ 0 < Dec.toRat ⟨9999, -2⟩ := by
  refine ⟨?_, by decide, Dec.toRat_pos_of _ (by decide), by decide,
    Dec.toRat_pos_of _ (by decide), by decide, Dec.toRat_pos_of _ (by decide)⟩
  intro s d h
  unfold parse_amount at h
  split at h
  · exact absurd h (by simp)
  · rw [Option.map_eq_some'] at h
    obtain ⟨d0, _, rfl⟩ := h
    exact Dec.toRat_abs_nonneg d0

theorem C1_witness :
    parse_amount ("-10.50") = some ⟨1050, -2⟩ ∧ 0 ≤ Dec.toRat ⟨1050, -2⟩ :=
  ⟨by decide, C1_parse_amount_nonneg.1 ("-10.50") ⟨1050, -2⟩ (by decide)⟩

/-! ## Claim C3 -/

/-- Claim C3 is refuted at `"01/15/69"`: CPython's `%y` directive maps the
two-digit years `69..99` to `1969..1999`, not to `2069..2099`, so the code
returns 1969-01-15 where the claim requires `2000 + 69 = 2069`. -/
theorem C3_counterexample :
    parse_date ("01/15/69") = some ⟨1969, 1, 15⟩ ∧
    parse_date ("01/15/69") ≠ some ⟨2069, 1, 15⟩ := by
  decide

/-- Claim C3, amended: `parse_date` tries `%m/%d/%Y`, `%m/%d/%y`,
`%Y-%m-%d` in that order, the first success winning; a two-digit year `y`
is interpreted as `2000 + y` when `y ≤ 68` and as `1900 + y` when
`69 ≤ y ≤ 99`; when every format fails the row's date is `None` and its
error is `"Invalid date format: <raw>"`. -/
theorem C3_parse_date_order :
    ∀ s : String,
    (∀ d, strptimeMDY4 ((pyStrip s).data) = some d → parse_date s = some d) ∧
    (strptimeMDY4 ((pyStrip s).data) = none →
      ∀ d, strptimeMDY2 ((pyStrip s).data) = some d → parse_date s = some d) ∧
    (s ≠ "" → strptimeMDY4 ((pyStrip s).data) = none → strptimeMDY2 ((pyStrip s).data) = none →
      parse_date s = strptimeYMD ((pyStrip s).data)) ∧
    (∀ m d y, scanMDY2 ((pyStrip s).data) = some (m, d, y) →
      strptimeMDY2 ((pyStrip s).data) =
        mkValidDate (if y ≤ 68 then 2000 + y else 1900 + y) m d) ∧
    (∀ cats ledger account (row : RawRow) n, parse_date row.date = none →
      (parse_row cats ledger account row n).date = none ∧
      (parse_row cats ledger account row n).error = some ("Invalid date format: " ++ row.date)) := by
  intro s
  refine ⟨?_, ?_, ?_, ?_, ?_⟩
  · intro d h
    by_cases hs : s = ""
    · rw [hs, show strptimeMDY4 ((pyStrip "").data) = none from by decide] at h
      exact absurd h (by simp)
    · unfold parse_date
      rw [if_neg hs]
      dsimp only
      rw [h]
  · intro h4 d h2
    by_cases hs : s = ""
    · rw [hs, show strptimeMDY2 ((pyStrip "").data) = none from by decide] at h2
      exact absurd h2 (by simp)
    · unfold parse_date
      rw [if_neg hs]
      dsimp only
      rw [h4, h2]
  · intro hs h4 h2
    unfold parse_date
    rw [if_neg hs]
    dsimp only
    rw [h4, h2]
  · intro m d y h
    unfold strptimeMDY2
    rw [h]
    rfl
  · intro cats ledger account row n h
    have hp := parse_row_pre_date_error cats row n h
    rw [parse_row_date, parse_row_error]
    exact hp

theorem C3_witness : parse_date ("01/15/2026") = some ⟨2026, 1, 15⟩ :=
  (C3_parse_date_order ("01/15/2026")).1 ⟨2026, 1, 15⟩ (by decide)

/-! ## Claim C5 -/

/-- Claim C5: when both the date and the amount of a row fail to parse, the
row's error is the date error; the amount error is only produced when no
earlier (date) error exists. -/
theorem C5_error_priority :
    ∀ cats ledger account (row : RawRow) n,
    (parse_date row.date = none → parse_amount row.amount = none →
      (parse_row cats ledger account row n).error = some ("Invalid date format: " ++ row.date)) ∧
    (parse_date row.date ≠ none → parse_amount row.amount = none →
      (parse_row cats ledger account row n).error = some ("Invalid amount format: " ++ row.amount)) := by
  intro cats ledger account row n
  constructor
  · intro hd _
    rw [parse_row_error]
    exact (parse_row_pre_date_error cats row n hd).2
  · intro hd ha
    rcases hcase : parse_date row.date with _ | d
    · exact absurd hcase hd
    · rw [parse_row_error]
      exact parse_row_pre_amount_error cats row n d hcase ha

theorem C5_witness :
    parse_date ("nope") = none ∧ parse_amount ("nah") = none ∧
    (parse_row [] [] ("a") { date := "nope", amount := "nah" } 1).error =
      some ("Invalid date format: nope") :=
  ⟨by decide, by decide,
    (C5_error_priority [] [] ("a") { date := "nope", amount := "nah" } 1).1 (by decide) (by decide)⟩

/-! ## The import loop, characterized -/

/-- The rows `import_rows` actually writes: valid, and not skipped as
duplicates. -/
def importSelect (skipDups : Bool) (rows : List ParsedRow) : List ParsedRow :=
  rows.filter (fun r => r.is_valid && !(r.is_duplicate && skipDups))

/-- The rows counted as skipped. -/
def skipSelect (skipDups : Bool) (rows : List ParsedRow) : List ParsedRow :=
  rows.filter (fun r => r.is_valid && (r.is_duplicate && skipDups))

/-- One unfolding of the loop of `import_rows`: the final state appends one
created entry per written row, counts them, counts the skipped rows, and
appends one error descriptor per invalid row. -/
theorem importGo_characterization (cats : List Category) (account user : String)
    (ovs : List (String × String)) (skipDups : Bool) :
    ∀ (rows : List ParsedRow) (st : ImportResult),
    importGo cats account user ovs skipDups rows st =
      ⟨st.ledger ++ (importSelect skipDups rows).map (entryFor cats account user ovs),
       st.imported + (importSelect skipDups rows).length,
       st.skipped + (skipSelect skipDups rows).length,
       st.errors ++ (rows.filter (fun r => !r.is_valid)).map
         (fun r => (r.row_number, r.error.getD ("Invalid row data")))⟩ := by
  intro rows
  induction rows with
  | nil => intro st; simp [importGo, importSelect, skipSelect]
  | cons r rest ih =>
    intro st
    unfold importGo
    by_cases hv : r.is_valid = true
    · by_cases hd : (r.is_duplicate && skipDups) = true
      · rw [if_pos hv, if_pos hd, ih]
        simp only [importSelect, skipSelect, List.filter_cons, hv, hd, Bool.not_true,
          Bool.and_false, Bool.and_true, Bool.true_and, Bool.not_eq_true', if_false, if_true,
          List.length_cons, ImportResult.mk.injEq]
        refine ⟨rfl, rfl, by omega, rfl⟩
      · rw [if_pos hv, if_neg hd, ih]
        rw [Bool.not_eq_true] at hd
        simp only [importSelect, skipSelect, List.filter_cons, hv, hd, Bool.not_false,
          Bool.and_false, Bool.and_true, Bool.true_and, if_false, if_true, List.map_cons,
          List.length_cons, ImportResult.mk.injEq]
        refine ⟨by simp, by omega, rfl, rfl⟩
    · rw [if_neg hv, ih]
      rw [Bool.not_eq_true] at hv
      simp only [importSelect, skipSelect, List.filter_cons, hv, Bool.false_and,
        Bool.not_false, if_false, if_true, List.map_cons, ImportResult.mk.injEq]
      refine ⟨rfl, rfl, rfl, by simp⟩

/-! ## Claim C7 -/

/-- Claim C7: `import_rows` only appends newly created entries to the
transaction store — the pre-existing prefix is untouched — and the number of
created entries equals the returned `imported` count; invalid rows and
skipped duplicates create nothing. -/
theorem C7_import_frame :
    ∀ cats (account user : String) ovs (skipDups : Bool) (rows : List ParsedRow)
      (ledger : List Transaction),
    (import_rows cats account user ovs skipDups rows ledger).ledger =
      ledger ++ (importSelect skipDups rows).map (entryFor cats account user ovs) ∧
    (import_rows cats account user ovs skipDups rows ledger).imported =
      (importSelect skipDups rows).length ∧
    (import_rows cats account user ovs skipDups rows ledger).ledger.length =
      ledger.length + (import_rows cats account user ovs skipDups rows ledger).imported ∧
    (import_rows cats account user ovs skipDups rows ledger).ledger.take ledger.length = ledger ∧
    (import_rows cats account user ovs skipDups rows ledger).skipped =
      (skipSelect skipDups rows).length := by
  intro cats account user ovs skipDups rows ledger
  unfold import_rows
  rw [importGo_characterization]
  refine ⟨rfl, by simp, by simp, List.take_left ledger _, by simp⟩

/-! ## Claim C2 -/

/-- A refund row (per `is_refund`) whose raw amount string is `"$-10.50"`. -/
def refundRawDollar : RawRow :=
  { date := "01/18/2026", description := "CHIPOTLE", amount := "$-10.50" }

/-- Claim C2 is refuted at the amount string `"$-10.50"`: `is_refund`
strips the `$` before parsing and classifies it as a refund, but the
executor tests `raw.strip().startswith('-')`, which is false for `"$-10.50"`,
so the imported entry is written as an expense, not income. -/
theorem C2_counterexample :
    is_refund ("$-10.50") = true ∧
    (parse_row [] [] ("acct") refundRawDollar 1).is_valid = true ∧
    (parse_row [] [] ("acct") refundRawDollar 1).is_duplicate = false ∧
    (import_rows [] ("acct") ("u") [] true
        [parse_row [] [] ("acct") refundRawDollar 1] []).imported = 1 ∧
    ((import_rows [] ("acct") ("u") [] true
        [parse_row [] [] ("acct") refundRawDollar 1] []).ledger.map
      (fun t => t.transaction_type)) = [("expense")] := by
  decide

/-- Claim C2, amended: the executor writes exactly the selected rows, and it
classifies a created entry as inflow (`'income'`) precisely when the row's
raw amount string, stripped, starts with `'-'`; every other created entry is
outflow (`'expense'`). -/
theorem C2_classification :
    ∀ cats (account user : String) ovs (skipDups : Bool) (rows : List ParsedRow)
      (ledger : List Transaction),
    ((import_rows cats account user ovs skipDups rows ledger).ledger.drop ledger.length =
      (importSelect skipDups rows).map (entryFor cats account user ovs)) ∧
    (∀ row : ParsedRow, (entryFor cats account user ovs row).transaction_type =
      if startsWithDash (pyStrip row.raw_data.amount) then ("income") else ("expense")) := by
  intro cats account user ovs skipDups rows ledger
  constructor
  · unfold import_rows
    rw [importGo_characterization]
    exact List.drop_left ledger _
  · intro row
    simp only [entryFor, rawAmountNegative]

/-! ## Claim C8 -/

/-- A refund row whose statement category suggests an expense category. -/
def refundRaw : RawRow :=
  { date := "01/18/2026", description := "CHIPOTLE", amount := "-10.50",
    category := "Merchandise & Supplies" }

/-- An active income category named `Refunds`. -/
def refundsCat : Category :=
  ⟨"c-ref", "Refunds", "income", true⟩

/-- Claim C8 is refuted when no active `Refunds` category exists: the code
assigns `category = refund_cat` unconditionally, so the resolved expense
category (here `Office Supplies`) is silently replaced by `None` rather than
kept. -/
theorem C8_counterexample :
    resolvedCategory [officeCat] [] (parse_row [officeCat] [] ("acct") refundRaw 1) =
      some officeCat ∧
    officeCat.category_type = "expense" ∧
    refundsCategory [officeCat] = none ∧
    rawAmountNegative (parse_row [officeCat] [] ("acct") refundRaw 1) = true ∧
    ((import_rows [officeCat] ("acct") ("u") [] true
        [parse_row [officeCat] [] ("acct") refundRaw 1] []).ledger.map (fun t => t.category)) =
      [none] := by
  decide

/-- Claim C8, amended: for a refund row whose resolved category is an
expense category, the written category is whatever the active-`Refunds`
lookup returns — the `Refunds` category's id when one exists and is active,
and `none` (the resolved category is dropped) when it does not; in every
other case the resolved category is written unchanged. -/
theorem C8_refund_category :
    ∀ cats (account user : String) ovs (row : ParsedRow),
    (rawAmountNegative row = true →
      (∃ c, resolvedCategory cats ovs row = some c ∧ c.category_type = "expense") →
      (entryFor cats account user ovs row).category =
        (refundsCategory cats).map (fun c => c.id)) ∧
    ((rawAmountNegative row = false ∨
        ¬ ∃ c, resolvedCategory cats ovs row = some c ∧ c.category_type = "expense") →
      (entryFor cats account user ovs row).category =
        (resolvedCategory cats ovs row).map (fun c => c.id)) := by
  intro cats account user ovs row
  constructor
  · rintro hneg ⟨c, hc, htype⟩
    simp [entryFor, finalCategory, hneg, hc, htype]
  · intro h
    rcases h with hneg | hnot
    · simp [entryFor, finalCategory, hneg]
    · rcases hres : resolvedCategory cats ovs row with _ | c
      · simp [entryFor, finalCategory, hres]
      · have hne : ¬ c.category_type = "expense" := fun hx => hnot ⟨c, hres, hx⟩
        simp [entryFor, finalCategory, hres, hne]

theorem C8_witness :
    rawAmountNegative (parse_row [officeCat, refundsCat] [] ("acct") refundRaw 1) = true ∧
    (entryFor [officeCat, refundsCat] ("acct") ("u") []
        (parse_row [officeCat, refundsCat] [] ("acct") refundRaw 1)).category =
      (refundsCategory [officeCat, refundsCat]).map (fun c => c.id) :=
  ⟨by decide,
    (C8_refund_category [officeCat, refundsCat] ("acct") ("u") []
        (parse_row [officeCat, refundsCat] [] ("acct") refundRaw 1)).1 (by decide)
      ⟨officeCat, by decide, rfl⟩⟩

/-! ## Claim C6 -/

theorem parseRowsFrom_getElem (cats : List Category) (ledger : List Transaction)
    (account : String) :
    ∀ (rows : List RawRow) (n i : Nat),
    (parseRowsFrom cats ledger account rows n)[i]? =
      (rows[i]?).map (fun r => parse_row cats ledger account r (n + i)) := by
  intro rows
  induction rows with
  | nil => intro n i; simp [parseRowsFrom]
  | cons r rest ih =>
    intro n i
    cases i with
    | zero => simp [parseRowsFrom]
    | succ j =>
      simp only [parseRowsFrom, List.getElem?_cons_succ, ih]
      rw [show n + 1 + j = n + (j + 1) from by omega]

theorem headerlessFrom_filter (cats : List Category) (ledger : List Transaction)
    (account : String) :
    ∀ (cellRows : List (List String)) (n : Nat),
    headerlessFrom cats ledger account cellRows n =
      parseRowsFrom cats ledger account
        ((cellRows.filter (fun cells => !cells.all (fun s => s == ""))).map rowOfCells) n := by
  intro cellRows
  induction cellRows with
  | nil => intro n; simp [headerlessFrom, parseRowsFrom]
  | cons cells rest ih =>
    intro n
    unfold headerlessFrom
    by_cases h : cells.all (fun s => s == "") = true
    · rw [if_pos h, ih]
      simp [List.filter_cons, h]
    · rw [if_neg h, ih]
      rw [Bool.not_eq_true] at h
      simp [List.filter_cons, h, parseRowsFrom]

/-- Claim C6: in both parser variants the record produced for a data row
carries `row_number` equal to the row's 1-based position among the retained
data rows, in input order; the record is exactly `parse_row` of that source
row, so earlier rows' parse errors cannot shift the numbering. -/
theorem C6_row_numbering :
    ∀ cats ledger (account : String),
    (∀ (rows : List RawRow) (i : Nat),
      (parse_csv cats ledger account rows)[i]? =
        (rows[i]?).map (fun r => parse_row cats ledger account r (i + 1))) ∧
    (∀ cellRows : List (List String),
      parse_headerless_csv cats ledger account cellRows =
        parse_csv cats ledger account
          ((cellRows.filter (fun cells => !cells.all (fun s => s == ""))).map rowOfCells)) ∧
    (∀ (rows : List RawRow) (i : Nat) (p : ParsedRow),
      (parse_csv cats ledger account rows)[i]? = some p → p.row_number = i + 1) ∧
    (∀ (cellRows : List (List String)) (i : Nat) (p : ParsedRow),
      (parse_headerless_csv cats ledger account cellRows)[i]? = some p → p.row_number = i + 1) := by
  intro cats ledger account
  have hget : ∀ (rows : List RawRow) (i : Nat),
      (parse_csv cats ledger account rows)[i]? =
        (rows[i]?).map (fun r => parse_row cats ledger account r (i + 1)) := by
    intro rows i
    unfold parse_csv
    rw [parseRowsFrom_getElem]
    rw [show 1 + i = i + 1 from by omega]
  have hhdr : ∀ cellRows : List (List String),
      parse_headerless_csv cats ledger account cellRows =
        parse_csv cats ledger account
          ((cellRows.filter (fun cells => !cells.all (fun s => s == ""))).map rowOfCells) := by
    intro cellRows
    unfold parse_headerless_csv parse_csv
    exact headerlessFrom_filter cats ledger account cellRows 1
  have hnum : ∀ (rows : List RawRow) (i : Nat) (p : ParsedRow),
      (parse_csv cats ledger account rows)[i]? = some p → p.row_number = i + 1 := by
    intro rows i p h
    rw [hget, Option.map_eq_some'] at h
    obtain ⟨r, _, rfl⟩ := h
    exact parse_row_row_number cats ledger account r (i + 1)
  refine ⟨hget, hhdr, hnum, ?_⟩
  intro cellRows i p h
  rw [hhdr] at h
  exact hnum _ i p h

theorem C6_witness :
    (parse_row [] [] ("a") missingDateRow 1).error ≠ none ∧
    (parse_csv [] [] ("a") [missingDateRow, amazonRow])[1]? =
      some (parse_row [] [] ("a") amazonRow 2) ∧
    (parse_row [] [] ("a") amazonRow 2).row_number = 2 :=
  ⟨by decide, by decide,
    (C6_row_numbering [] [] ("a")).2.2.1 [missingDateRow, amazonRow] 1
      (parse_row [] [] ("a") amazonRow 2) (by decide)⟩

/-! ## Claim C4 -/

/-- A ledger entry with amount zero. -/
def zeroTx : Transaction :=
  { id := "t-zero"
    account := "acct"
    transaction_type := "expense"
    category := none
    amount := ⟨0, -2⟩
    transaction_date := ⟨2026, 1, 15⟩
    description := "ZERO"
    vendor := ""
    reference_number := ""
    created_by := "" }

/-- A zero-amount row matching `zeroTx` on account, date, amount and
description. -/
def zeroRaw : RawRow :=
  { date := "01/15/2026", description := "ZERO", amount := "0.00" }

theorem parse_row_of_error_none (cats : List Category) (ledger : List Transaction)
    (account : String) (row : RawRow) (n : Nat)
    (h : (parse_row_pre cats row n).error = none) :
    (parse_row cats ledger account row n).is_duplicate =
      (check_duplicate ledger account (parse_row_pre cats row n)).1 ∧
    (parse_row cats ledger account row n).duplicate_transaction_id =
      (check_duplicate ledger account (parse_row_pre cats row n)).2 := by
  unfold parse_row
  dsimp only
  rw [if_pos (by rw [h]; rfl)]
  exact ⟨rfl, rfl⟩

theorem parse_row_of_error_some (cats : List Category) (ledger : List Transaction)
    (account : String) (row : RawRow) (n : Nat)
    (h : (parse_row_pre cats row n).error ≠ none) :
    (parse_row cats ledger account row n).is_duplicate = false ∧
    (parse_row cats ledger account row n).duplicate_transaction_id = none := by
  unfold parse_row
  dsimp only
  rw [if_neg (fun hh => h (Option.isNone_iff_eq_none.mp hh))]
  exact ⟨rfl, rfl⟩

theorem parse_row_pre_error_none_date (cats : List Category) (row : RawRow) (n : Nat)
    (h : (parse_row_pre cats row n).error = none) :
    (parse_row_pre cats row n).date.isNone = false := by
  unfold parse_row_pre at h ⊢
  dsimp only at h ⊢
  by_cases hd : (parse_date row.date).isNone = true
  · simp [hd] at h
  · rw [Bool.not_eq_true] at hd
    exact hd

theorem check_duplicate_zero (ledger : List Transaction) (account : String) (r : ParsedRow)
    (a : Dec) (ha : r.amount = some a) (hz : a.isZero = true) :
    check_duplicate ledger account r = (false, none) := by
  unfold check_duplicate
  rw [if_pos (by rw [ha]; simp [hz])]

theorem check_duplicate_run (ledger : List Transaction) (account : String) (r : ParsedRow)
    (hd : r.date.isNone = false) (a : Dec) (ha : r.amount = some a) (hz : a.isZero = false) :
    check_duplicate ledger account r =
      (match ledger.find? (tripleMatch account r) with
       | some t => (true, some t.id)
       | none =>
         if r.reference ≠ "" then
           match ledger.find? (refMatch account r) with
           | some t => (true, some t.id)
           | none => (false, none)
         else (false, none)) := by
  unfold check_duplicate
  rw [if_neg (by rw [hd, ha]; simp [hz])]

theorem tripleMatch_parse_row (cats : List Category) (ledger : List Transaction)
    (account acct2 : String) (row : RawRow) (n : Nat) (t : Transaction) :
    tripleMatch acct2 (parse_row cats ledger account row n) t =
      tripleMatch acct2 (parse_row_pre cats row n) t := by
  unfold tripleMatch descrKey
  rw [parse_row_date, parse_row_amount, parse_row_descr]

theorem refMatch_parse_row (cats : List Category) (ledger : List Transaction)
    (account acct2 : String) (row : RawRow) (n : Nat) (t : Transaction) :
    refMatch acct2 (parse_row cats ledger account row n) t =
      refMatch acct2 (parse_row_pre cats row n) t := by
  unfold refMatch
  rw [parse_row_ref]

/-- Claim C4 is refuted at a zero-amount row: `"0.00"` parses without error
to amount `0`, the target ledger holds an entry matching the
(account, date, amount, description) rule, and yet the row is not marked as
a duplicate — the guard `not parsed_row.amount` treats a zero `Decimal` as
falsy and skips the lookup entirely. -/
theorem C4_counterexample :
    (parse_row [] [zeroTx] ("acct") zeroRaw 1).error = none ∧
    (∃ t ∈ [zeroTx], tripleMatch ("acct") (parse_row [] [zeroTx] ("acct") zeroRaw 1) t = true) ∧
    (parse_row [] [zeroTx] ("acct") zeroRaw 1).is_duplicate = false ∧
    (parse_row [] [zeroTx] ("acct") zeroRaw 1).duplicate_transaction_id = none := by
  decide

/-- Claim C4, amended: rows with a parse error — and also rows whose parsed
amount equals zero, which the falsiness guard exempts — are never checked
and stay non-duplicates; every other error-free row is marked duplicate iff
the ledger has an entry with the same account, date, amount and
case-insensitive match on the 500-character description key, or, when the
row carries a reference, an entry with the same account and reference; the
(date, amount, description) lookup runs first and the first matching entry's
id is recorded. -/
theorem C4_duplicate_rule :
    ∀ cats ledger (account : String) (row : RawRow) (n : Nat) (p : ParsedRow),
    p = parse_row cats ledger account row n →
    (p.error ≠ none → p.is_duplicate = false ∧ p.duplicate_transaction_id = none) ∧
    (p.error = none → ∀ a : Dec, p.amount = some a → a.isZero = true →
      p.is_duplicate = false ∧ p.duplicate_transaction_id = none) ∧
    (p.error = none → ∀ a : Dec, p.amount = some a → a.isZero = false →
      ((p.is_duplicate = true ↔
        (∃ t ∈ ledger, tripleMatch account p t = true) ∨
          (p.reference ≠ "" ∧ ∃ t ∈ ledger, refMatch account p t = true)) ∧
       (∀ t : Transaction, ledger.find? (tripleMatch account p) = some t →
          p.is_duplicate = true ∧ p.duplicate_transaction_id = some t.id) ∧
       (ledger.find? (tripleMatch account p) = none → p.reference ≠ "" →
          p.duplicate_transaction_id =
            (ledger.find? (refMatch account p)).map (fun t => t.id)))) := by
  intro cats ledger account row n p hp
  subst hp
  have herr := parse_row_error cats ledger account row n
  have hamt := parse_row_amount cats ledger account row n
  have href := parse_row_ref cats ledger account row n
  have htm : tripleMatch account (parse_row cats ledger account row n) =
      tripleMatch account (parse_row_pre cats row n) :=
    funext (tripleMatch_parse_row cats ledger account account row n)
  have hrm : refMatch account (parse_row cats ledger account row n) =
      refMatch account (parse_row_pre cats row n) :=
    funext (refMatch_parse_row cats ledger account account row n)
  refine ⟨?_, ?_, ?_⟩
  · intro h
    rw [herr] at h
    exact parse_row_of_error_some cats ledger account row n h
  · intro h a ha hz
    rw [herr] at h
    rw [hamt] at ha
    have hd := parse_row_of_error_none cats ledger account row n h
    rw [check_duplicate_zero ledger account _ a ha hz] at hd
    exact hd
  · intro h a ha hz
    rw [herr] at h
    rw [hamt] at ha
    have hdate := parse_row_pre_error_none_date cats row n h
    have hd := parse_row_of_error_none cats ledger account row n h
    rw [check_duplicate_run ledger account _ hdate a ha hz] at hd
    obtain ⟨hd1, hd2⟩ := hd
    rw [htm, hrm, href]
    rcases hfind : ledger.find? (tripleMatch account (parse_row_pre cats row n)) with _ | t
    · rw [hfind] at hd1 hd2
      by_cases hre : (parse_row_pre cats row n).reference ≠ ""
      · rw [if_pos hre] at hd1 hd2
        rcases hfind2 : ledger.find? (refMatch account (parse_row_pre cats row n)) with _ | t2
        · rw [hfind2] at hd1 hd2
          refine ⟨?_, ?_, ?_⟩
          · refine iff_of_false (fun hx => by rw [hd1] at hx; exact absurd hx (by simp)) ?_
            rintro (⟨t, ht, hpt⟩ | ⟨_, t, ht, hpt⟩)
            · exact (List.find?_eq_none.mp hfind t ht) hpt
            · exact (List.find?_eq_none.mp hfind2 t ht) hpt
          · intro t' h'
            exact absurd h' (by simp)
          · intro _ _
            exact hd2
        · rw [hfind2] at hd1 hd2
          refine ⟨?_, ?_, ?_⟩
          · exact iff_of_true hd1
              (Or.inr ⟨hre, t2, List.mem_of_find?_eq_some hfind2, List.find?_some hfind2⟩)
          · intro t' h'
            exact absurd h' (by simp)
          · intro _ _
            exact hd2
      · rw [if_neg hre] at hd1 hd2
        rw [not_not] at hre
        refine ⟨?_, ?_, ?_⟩
        · refine iff_of_false (fun hx => by rw [hd1] at hx; exact absurd hx (by simp)) ?_
          rintro (⟨t, ht, hpt⟩ | ⟨hr, _⟩)
          · exact (List.find?_eq_none.mp hfind t ht) hpt
          · exact hr hre
        · intro t' h'
          exact absurd h' (by simp)
        · intro _ hr
          exact absurd hre hr
    · rw [hfind] at hd1 hd2
      refine ⟨?_, ?_, ?_⟩
      · exact iff_of_true hd1
          (Or.inl ⟨t, List.mem_of_find?_eq_some hfind, List.find?_some hfind⟩)
      · intro t' h'
        rw [Option.some_inj] at h'
        subst h'
        exact ⟨hd1, hd2⟩
      · intro hnone _
        exact absurd hnone (by simp)

theorem C4_witness :
    (parse_row [officeCat] [amazonTx] ("acct") amazonRow 1).error = none ∧
    (parse_row [officeCat] [amazonTx] ("acct") amazonRow 1).is_duplicate = true ∧
    (parse_row [officeCat] [amazonTx] ("acct") amazonRow 1).duplicate_transaction_id =
      some (amazonTx.id) :=
  ⟨by decide,
    ((C4_duplicate_rule [officeCat] [amazonTx] ("acct") amazonRow 1
        (parse_row [officeCat] [amazonTx] ("acct") amazonRow 1) rfl).2.2 (by decide)
      ⟨4999, -2⟩ (by decide) (by decide)).2.1 amazonTx (by decide)⟩

/-! ## Claim C9 -/

/-- Claim C9: a file whose reader yields fewer than two rows (header only,
or nothing) is always rejected, whatever else holds of it; a `.csv` file of
admissible size that decodes, is not blank, and has a header row carrying
the `Date`, `Amount` and a description column plus exactly one data row is
accepted, reporting one data row. -/
theorem C9_empty_boundary :
    (∀ f : UploadedFile, f.rows.length < 2 → (validate_csv_file (some f)).valid = false) ∧
    (∀ f : UploadedFile,
      List.isSuffixOf (".csv".data) (pyLower f.name).data = true →
      f.size ≤ 5 * 1024 * 1024 →
      f.decode_ok = true →
      f.content_blank = false →
      f.rows.length = 2 →
      (normalizedHeaders f).contains ("date") = true →
      (normalizedHeaders f).contains ("amount") = true →
      ((normalizedHeaders f).contains ("description") ||
        (normalizedHeaders f).contains ("appears on your statement as")) = true →
      (validate_csv_file (some f)).valid = true ∧
      (validate_csv_file (some f)).row_count = some 1) := by
  constructor
  · intro f h
    unfold validate_csv_file
    dsimp only
    split_ifs <;> rfl
  · intro f hext hsize hdec hblank hlen hdate hamount hdescr
    have hdate' : ("date") ∈ normalizedHeaders f := by simpa using hdate
    have hamount' : ("amount") ∈ normalizedHeaders f := by simpa using hamount
    have hdescr' : ("description") ∈ normalizedHeaders f ∨
        ("appears on your statement as") ∈ normalizedHeaders f := by simpa using hdescr
    unfold validate_csv_file
    dsimp only
    rw [if_neg (by simp [hext]), if_neg (by omega), if_neg (by simp [hdec]),
      if_neg (by simp [hblank]), if_neg (by omega),
      if_neg (by simp [hdate', hamount']),
      if_neg (by simp; intro h; exact hdescr'.resolve_left h), if_neg (by omega)]
    exact ⟨rfl, by rw [hlen]⟩

theorem C9_witness :
    (validate_csv_file (some ⟨"test.csv", 100, true, false,
        [["Date", "Amount", "Description"], ["01/15/2026", "49.99", "X"]]⟩)).valid = true ∧
    (validate_csv_file (some ⟨"test.csv", 100, true, false,
        [["Date", "Amount", "Description"], ["01/15/2026", "49.99", "X"]]⟩)).row_count = some 1 :=
  C9_empty_boundary.2 ⟨"test.csv", 100, true, false,
    [["Date", "Amount", "Description"], ["01/15/2026", "49.99", "X"]]⟩
    (by decide) (by decide) (by decide) (by decide) (by decide) (by decide) (by decide) (by decide)

/-! ## Claim C10 -/

/-- Claim C10: a file whose reader yields more than 10000 rows (header
included) is never validated, so it cannot reach the parse or import stage
through the validated path; when the row-count check is the one that fires
(all earlier checks pass), the error names the row count and the maximum. -/
theorem C10_row_cap :
    (∀ f : UploadedFile, f.rows.length > 10000 → (validate_csv_file (some f)).valid = false) ∧
    (∀ f : UploadedFile,
      List.isSuffixOf (".csv".data) (pyLower f.name).data = true →
      f.size ≤ 5 * 1024 * 1024 →
      f.decode_ok = true →
      f.content_blank = false →
      (normalizedHeaders f).contains ("date") = true →
      (normalizedHeaders f).contains ("amount") = true →
      ((normalizedHeaders f).contains ("description") ||
        (normalizedHeaders f).contains ("appears on your statement as")) = true →
      f.rows.length > 10000 →
      (validate_csv_file (some f)).error =
        some ("File has too many rows (" ++ toString f.rows.length ++
          "). Maximum allowed is 10000.")) := by
  constructor
  · intro f h
    unfold validate_csv_file
    dsimp only
    split_ifs <;> rfl
  · intro f hext hsize hdec hblank hdate hamount hdescr hlen
    have hdate' : ("date") ∈ normalizedHeaders f := by simpa using hdate
    have hamount' : ("amount") ∈ normalizedHeaders f := by simpa using hamount
    have hdescr' : ("description") ∈ normalizedHeaders f ∨
        ("appears on your statement as") ∈ normalizedHeaders f := by simpa using hdescr
    unfold validate_csv_file
    dsimp only
    rw [if_neg (by simp [hext]), if_neg (by omega), if_neg (by simp [hdec]),
      if_neg (by simp [hblank]), if_neg (by omega),
      if_neg (by simp [hdate', hamount']),
      if_neg (by simp; intro h; exact hdescr'.resolve_left h), if_pos (by omega)]

/-- A `.csv` upload with a valid header and 10000 data rows beyond it
(10001 rows in total). -/
def bigFile : UploadedFile :=
  ⟨"big.csv", 100, true, false, List.replicate 10001 ["Date", "Amount", "Description"]⟩

theorem C10_witness :
    bigFile.rows.length > 10000 ∧
    (validate_csv_file (some bigFile)).error =
      some ("File has too many rows (" ++ toString (10001 : Nat) ++
        "). Maximum allowed is 10000.") := by
  have hrows : bigFile.rows = List.replicate 10001 (["Date", "Amount", "Description"]) := rfl
  have hlen : bigFile.rows.length = 10001 := by
    rw [hrows, List.length_replicate]
  have h := C10_row_cap.2 bigFile (by decide) (by decide) (by decide) (by decide)
    (by decide) (by decide) (by decide) (by rw [hlen]; omega)
  rw [hlen] at h
  exact ⟨by rw [hlen]; omega, h⟩

end Importers
